import Mathlib

/-!
Verification of the output adapters of `src/xml_output.rs` (evtx2).

The file embeds the two visitor-protocol adapters of that module:
`SerdeOutput` (the tree / JSON adapter) and `XMLOutput` (the streaming
XML-text adapter).  `serde_json::Value` is embedded as `Value` below,
`serde_json::Map` as an association list with serde's insert semantics
(replace the value in place when the key is present, append otherwise).
Rust's two failure channels are kept apart: `Err(...)` results become
`Failure.err msg`, and panics (`expect`, `unimplemented!`) become
`Failure.panic msg`; both abort the computation in the `Except` monad,
but only `Failure.err` models a `Result` error returned to the caller.
The byte sink and the external `xml-rs` event writer are modelled as the
data handed to them (the serialized root `Value`, resp. the list of
emitted writer events); their own I/O failures are out of scope, as the
module treats them as external collaborators.
-/

/-- Embedding of `serde_json::Value` as used by `xml_output.rs`.  The module
only ever constructs `Null`, `String` and `Object` values, but `Array` is kept
in the type so that "no array is ever produced" is a statement, not a tautology.
(The `Bool`/`Number` variants behave exactly like `String` under every operation
this module performs — `get` returns `None`, `is_null` is false, `as_object_mut`
is `None` — and are omitted.) -/
inductive Value where
  | null : Value
  | str : String → Value
  | obj : List (String × Value) → Value
  | arr : List Value → Value

/-- A failed visitor operation: `err` is a returned `Err(format_err!(...))`,
`panic` is a Rust panic (`expect` / `unimplemented!`). -/
inductive Failure where
  | err : String → Failure
  | panic : String → Failure

/-- Is this result a returned `Err` (as opposed to a success or a panic)? -/
def returns_err {α : Type} : Except Failure α → Bool
  | Except.error (Failure.err _) => true
  | _ => false

/-- `serde_json::Map` lookup (first binding of the key). -/
def mapGet : List (String × Value) → String → Option Value
  | [], _ => none
  | (k', v') :: rest, k => if k' = k then some v' else mapGet rest k

/-- `serde_json::Map::insert`: replace the value in place when the key is
present, append the binding otherwise. -/
def mapInsert : List (String × Value) → String → Value → List (String × Value)
  | [], k, v => [(k, v)]
  | (k', v') :: rest, k, v =>
      if k' = k then (k, v) :: rest else (k', v') :: mapInsert rest k v

/-- `serde_json::Value::get` with a string key: a lookup on objects, `None` on
every other variant. -/
def Value.get : Value → String → Option Value
  | Value.obj m, k => mapGet m k
  | _, _ => none

/-- An attribute of `XmlElement`: an interned name and a string value
(`BinXmlName` / `Cow<str>` are embedded as plain strings). -/
structure XmlAttribute where
  name : String
  value : String

/-- `XmlElement`: a name and an ordered attribute list. -/
structure XmlElement where
  name : String
  attributes : List XmlAttribute

/-- State of `SerdeOutput<W>`: the document root (`map`), the path stack
(root-most segment first; `Vec::push` appends at the end), and the
end-of-stream flag.  The sink `W` itself carries no state that the module
reads, so it is not part of the state; `into_writer` returns the root value
that gets pretty-serialized into it. -/
structure SerdeOutput where
  map : Value
  stack : List String
  eof_reached : Bool

/-- `SerdeOutput::get_or_create_current_path`, as a function from the root
value and the (remaining) stack to the updated root.  Loop body, per segment
`key`: if `v.get(key)` is `None` then — if the node is `Null`, replace it with
an `Object` holding `key ↦ Object(Map::new())`; if it is an `Object`, insert
`key ↦ Object(Map::new())`; otherwise `as_object_mut().expect(...)` panics.
Then descend into the child.  (When the key is present nothing is inserted and
the walk just descends.) -/
def get_or_create_current_path : Value → List String → Except Failure Value
  | v, [] => Except.ok v
  | Value.null, key :: rest =>
      (get_or_create_current_path (Value.obj []) rest).map
        fun c => Value.obj [(key, c)]
  | Value.obj m, key :: rest =>
      match mapGet m key with
      | some child =>
          (get_or_create_current_path child rest).map
            fun c => Value.obj (mapInsert m key c)
      | none =>
          (get_or_create_current_path (Value.obj []) rest).map
            fun c => Value.obj (mapInsert m key c)
  | Value.str _, _ :: _ =>
      Except.error
        (Failure.panic "It can only be an object or null, and null was covered")
  | Value.arr _, _ :: _ =>
      Except.error
        (Failure.panic "It can only be an object or null, and null was covered")

/-- Mutation through the `&mut Value` reference produced by walking an
already-created path (`get_current_parent`'s loop uses
`get_mut(key).expect(...)`, so a missing or non-object step is a panic):
descend along `path` and apply `f` to the node found there, rebuilding the
spine. -/
def modify_at :
    Value → List String → (Value → Except Failure Value) → Except Failure Value
  | v, [], f => f v
  | Value.obj m, key :: rest, f =>
      match mapGet m key with
      | some child =>
          (modify_at child rest f).map fun c => Value.obj (mapInsert m key c)
      | none =>
          Except.error (Failure.panic
            "Calling get_or_create_current_path ensures that the node was created")
  | _, _ :: _, _ =>
      Except.error (Failure.panic
        "Calling get_or_create_current_path ensures that the node was created")

/-- `SerdeOutput::with_writer`: empty object root, empty stack, EOF not
reached. -/
def SerdeOutput.with_writer : SerdeOutput :=
  { map := Value.obj [], stack := [], eof_reached := false }

/-- `SerdeOutput::insert_node_without_attributes`: push the name, then
`get_current_parent` (which first runs `get_or_create_current_path` over the
whole stack and then walks all but the last segment), and insert
`name ↦ Null` into that parent, which must be an object. -/
def SerdeOutput.insert_node_without_attributes (s : SerdeOutput)
    (name : String) : Except Failure SerdeOutput := do
  let stack' := s.stack ++ [name]
  let filled ← get_or_create_current_path s.map stack'
  let root ← modify_at filled stack'.dropLast fun parent =>
    match parent with
    | Value.obj m => Except.ok (Value.obj (mapInsert m name Value.null))
    | _ => Except.error (Failure.err
        "This is a bug - expected parent container to exist, and to be an object type.Check that the referenceing parent is not `Value::null`")
  Except.ok { map := root, stack := stack', eof_reached := s.eof_reached }

/-- Attribute map built by `insert_node_with_attributes`: every attribute
inserted in order as a string value. -/
def build_attributes (attrs : List XmlAttribute) : List (String × Value) :=
  attrs.foldl (fun acc a => mapInsert acc a.name (Value.str a.value)) []

/-- `SerdeOutput::insert_node_with_attributes`: push the name, resolve the
current path (the node itself), require it to be an object, and insert
`"#attributes" ↦ Object(attributes)` into it. -/
def SerdeOutput.insert_node_with_attributes (s : SerdeOutput) (e : XmlElement)
    (name : String) : Except Failure SerdeOutput := do
  let stack' := s.stack ++ [name]
  let filled ← get_or_create_current_path s.map stack'
  let root ← modify_at filled stack' fun cur =>
    match cur with
    | Value.obj m =>
        Except.ok (Value.obj
          (mapInsert m "#attributes" (Value.obj (build_attributes e.attributes))))
    | _ => Except.error (Failure.err
        "This is a bug - expected current value to exist, and to be an object type.Check that the value is not `Value::null`")
  Except.ok { map := root, stack := stack', eof_reached := s.eof_reached }

/-- `SerdeOutput::insert_data_node`: find the attribute literally named
`"Name"`; its absence is a panic (`.expect("Data node to have a name")`);
otherwise insert a node without attributes keyed by that attribute's value. -/
def SerdeOutput.insert_data_node (s : SerdeOutput) (e : XmlElement) :
    Except Failure SerdeOutput :=
  match e.attributes.find? (fun a => a.name == "Name") with
  | some a => s.insert_node_without_attributes a.value
  | none => Except.error (Failure.panic "Data node to have a name")

/-- `SerdeOutput::visit_open_start_element`: dispatch on the element name
(`"Data"` first) and on whether the attribute list is empty.  No end-of-stream
check is performed. -/
def SerdeOutput.visit_open_start_element (s : SerdeOutput) (e : XmlElement) :
    Except Failure SerdeOutput :=
  if e.name == "Data" then s.insert_data_node e
  else if e.attributes.isEmpty then s.insert_node_without_attributes e.name
  else s.insert_node_with_attributes e e.name

/-- `SerdeOutput::visit_close_element`: `self.stack.pop()` (drop the last
segment; a no-op on an empty stack) and `Ok(())` unconditionally. -/
def SerdeOutput.visit_close_element (s : SerdeOutput) :
    Except Failure SerdeOutput :=
  Except.ok { s with stack := s.stack.dropLast }

/-- `SerdeOutput::visit_characters`: resolve the current path; if the current
node is `Null`, replace it with `String(value)`; if it is an `Object`, insert
`"#text" ↦ String(value)`; any other variant is a returned error. -/
def SerdeOutput.visit_characters (s : SerdeOutput) (value : String) :
    Except Failure SerdeOutput := do
  let filled ← get_or_create_current_path s.map s.stack
  let root ← modify_at filled s.stack fun cur =>
    match cur with
    | Value.null => Except.ok (Value.str value)
    | Value.obj m =>
        Except.ok (Value.obj (mapInsert m "#text" (Value.str value)))
    | _ => Except.error (Failure.err
        "This is a bug - expected current value to be an object type")
  Except.ok { s with map := root }

/-- `SerdeOutput::visit_end_of_stream`: set the flag, `Ok(())`. -/
def SerdeOutput.visit_end_of_stream (s : SerdeOutput) :
    Except Failure SerdeOutput :=
  Except.ok { s with eof_reached := true }

/-- `SerdeOutput::visit_start_of_stream`: `Ok(())`, no state change, no
end-of-stream check. -/
def SerdeOutput.visit_start_of_stream (s : SerdeOutput) :
    Except Failure SerdeOutput :=
  Except.ok s

/-- `SerdeOutput::visit_cdata_section`: `unimplemented!()` — a panic. -/
def SerdeOutput.visit_cdata_section (_ : SerdeOutput) :
    Except Failure SerdeOutput :=
  Except.error (Failure.panic "not implemented")

/-- `SerdeOutput::visit_entity_reference`: `unimplemented!()` — a panic. -/
def SerdeOutput.visit_entity_reference (_ : SerdeOutput) :
    Except Failure SerdeOutput :=
  Except.error (Failure.panic "not implemented")

/-- `SerdeOutput::visit_processing_instruction_target`: `unimplemented!()`. -/
def SerdeOutput.visit_processing_instruction_target (_ : SerdeOutput) :
    Except Failure SerdeOutput :=
  Except.error (Failure.panic "not implemented")

/-- `SerdeOutput::visit_processing_instruction_data`: `unimplemented!()`. -/
def SerdeOutput.visit_processing_instruction_data (_ : SerdeOutput) :
    Except Failure SerdeOutput :=
  Except.error (Failure.panic "not implemented")

/-- `SerdeOutput::into_writer`: before EOF, a returned error; after EOF with a
non-empty stack, a returned error; otherwise the root is pretty-serialized
into the sink and the sink is returned (modelled by returning the root). -/
def SerdeOutput.into_writer (s : SerdeOutput) : Except Failure Value :=
  if s.eof_reached then
    if s.stack.isEmpty then Except.ok s.map
    else Except.error
      (Failure.err "Invalid stream, EOF reached before closing all attributes")
  else Except.error
    (Failure.err "Tried to return writer before EOF marked, incomplete output.")

/-- An event written to the external `xml-rs` `EventWriter` by `XMLOutput`. -/
inductive XmlWriterEvent where
  | start_document : XmlWriterEvent
  | start_element : String → List (String × String) → XmlWriterEvent
  | end_element : XmlWriterEvent
  | characters : String → XmlWriterEvent

/-- State of `XMLOutput<W>`: the events handed to the `xml-rs` writer so far
and the end-of-stream flag.  (The writer's own configuration — CRLF line
separator, indentation, no self-closing normalization — and its failure modes
belong to the external crate and are not modelled.) -/
structure XMLOutput where
  events : List XmlWriterEvent
  eof_reached : Bool

/-- `XMLOutput::with_writer`: fresh writer, EOF not reached. -/
def XMLOutput.with_writer : XMLOutput :=
  { events := [], eof_reached := false }

/-- `XMLOutput::into_writer`: the sink only after EOF, a returned error
before. -/
def XMLOutput.into_writer (x : XMLOutput) :
    Except Failure (List XmlWriterEvent) :=
  if x.eof_reached then Except.ok x.events
  else Except.error
    (Failure.err "Tried to return writer before EOF marked, incomplete output.")

/-- `XMLOutput::visit_end_of_stream`: set the flag, `Ok(())`. -/
def XMLOutput.visit_end_of_stream (x : XMLOutput) : Except Failure XMLOutput :=
  Except.ok { x with eof_reached := true }

/-- `XMLOutput::visit_start_of_stream`: bails after EOF, else writes the XML
document declaration. -/
def XMLOutput.visit_start_of_stream (x : XMLOutput) : Except Failure XMLOutput :=
  if x.eof_reached then
    Except.error (Failure.err "Impossible state - `visit_start_of_stream` after EOF")
  else
    Except.ok { x with events := x.events ++ [XmlWriterEvent.start_document] }

/-- `XMLOutput::visit_open_start_element`: bails after EOF, else writes a
start-element event carrying the name and every attribute in order. -/
def XMLOutput.visit_open_start_element (x : XMLOutput) (e : XmlElement) :
    Except Failure XMLOutput :=
  if x.eof_reached then
    Except.error (Failure.err "Impossible state - `visit_open_start_element` after EOF")
  else
    Except.ok { x with events := x.events ++
      [XmlWriterEvent.start_element e.name
        (e.attributes.map fun a => (a.name, a.value))] }

/-- `XMLOutput::visit_close_element`: writes an end-element event; no EOF
check. -/
def XMLOutput.visit_close_element (x : XMLOutput) : Except Failure XMLOutput :=
  Except.ok { x with events := x.events ++ [XmlWriterEvent.end_element] }

/-- `XMLOutput::visit_characters`: writes a characters event; no EOF check. -/
def XMLOutput.visit_characters (x : XMLOutput) (value : String) :
    Except Failure XMLOutput :=
  Except.ok { x with events := x.events ++ [XmlWriterEvent.characters value] }

/-- `XMLOutput::visit_cdata_section`: `unimplemented!("visit_cdata_section")`. -/
def XMLOutput.visit_cdata_section (_ : XMLOutput) : Except Failure XMLOutput :=
  Except.error (Failure.panic "not implemented: visit_cdata_section")

/-- `XMLOutput::visit_entity_reference`: `unimplemented!(...)`. -/
def XMLOutput.visit_entity_reference (_ : XMLOutput) : Except Failure XMLOutput :=
  Except.error (Failure.panic "not implemented: visit_entity_reference")

/-- `XMLOutput::visit_processing_instruction_target`: `unimplemented!(...)`. -/
def XMLOutput.visit_processing_instruction_target (_ : XMLOutput) :
    Except Failure XMLOutput :=
  Except.error (Failure.panic "not implemented: visit_processing_instruction_target")

/-- `XMLOutput::visit_processing_instruction_data`: `unimplemented!(...)`. -/
def XMLOutput.visit_processing_instruction_data (_ : XMLOutput) :
    Except Failure XMLOutput :=
  Except.error (Failure.panic "not implemented: visit_processing_instruction_data")

/-- One event of the visitor protocol (`BinXMLOutput`), as driven by the
upstream decoder. -/
inductive VisitEvent where
  | start_of_stream : VisitEvent
  | end_of_stream : VisitEvent
  | open_start_element : XmlElement → VisitEvent
  | close_element : VisitEvent
  | characters : String → VisitEvent
  | cdata_section : VisitEvent
  | entity_reference : VisitEvent
  | processing_instruction_target : VisitEvent
  | processing_instruction_data : VisitEvent

/-- Dispatch one protocol event to the tree adapter. -/
def SerdeOutput.visit (s : SerdeOutput) : VisitEvent → Except Failure SerdeOutput
  | VisitEvent.start_of_stream => s.visit_start_of_stream
  | VisitEvent.end_of_stream => s.visit_end_of_stream
  | VisitEvent.open_start_element e => s.visit_open_start_element e
  | VisitEvent.close_element => s.visit_close_element
  | VisitEvent.characters t => s.visit_characters t
  | VisitEvent.cdata_section => s.visit_cdata_section
  | VisitEvent.entity_reference => s.visit_entity_reference
  | VisitEvent.processing_instruction_target => s.visit_processing_instruction_target
  | VisitEvent.processing_instruction_data => s.visit_processing_instruction_data

/-- Run a sequence of protocol events against the tree adapter, stopping at
the first failure. -/
def SerdeOutput.run (s : SerdeOutput) : List VisitEvent → Except Failure SerdeOutput
  | [] => Except.ok s
  | ev :: evs =>
      match s.visit ev with
      | Except.ok s' => s'.run evs
      | Except.error e => Except.error e

/-- Drive a whole event sequence from a fresh tree adapter and finalize. -/
def run_to_writer (evs : List VisitEvent) : Except Failure Value :=
  match SerdeOutput.with_writer.run evs with
  | Except.ok s => s.into_writer
  | Except.error e => Except.error e

/-- Does the whole path of keys already exist, walking from `v`? -/
def path_exists : Value → List String → Bool
  | _, [] => true
  | v, key :: rest =>
      match v.get key with
      | some child => path_exists child rest
      | none => false

/-- The node reached by walking `path` from `v`, when the path exists. -/
def node_at : Value → List String → Option Value
  | v, [] => some v
  | v, key :: rest =>
      match v.get key with
      | some child => node_at child rest
      | none => none

/-- Replace the node reached by walking `path` from `v` (identity off the
path; only used on existing paths). -/
def set_at : Value → List String → Value → Value
  | _, [], nv => nv
  | Value.obj m, key :: rest, nv =>
      match mapGet m key with
      | some child => Value.obj (mapInsert m key (set_at child rest nv))
      | none => Value.obj m
  | v, _ :: _, _ => v

mutual

/-- `true` iff the value contains no `Array` anywhere. -/
def no_arr : Value → Bool
  | Value.null => true
  | Value.str _ => true
  | Value.arr _ => false
  | Value.obj m => no_arr_entries m

/-- `true` iff no entry of the object map contains an `Array` anywhere. -/
def no_arr_entries : List (String × Value) → Bool
  | [] => true
  | (_, v) :: rest => no_arr v && no_arr_entries rest

end

/-! ## Helper lemmas -/

theorem except_map_eq_ok {α β : Type} {g : α → β} {e : Except Failure α} {b : β}
    (h : e.map g = Except.ok b) : ∃ a, e = Except.ok a ∧ b = g a := by
  cases e with
  | ok a => exact ⟨a, rfl, by simpa [Except.map] using h.symm⟩
  | error _ => simp [Except.map] at h

theorem except_bind_eq_ok {α β : Type} {e : Except Failure α}
    {f : α → Except Failure β} {b : β} (h : e >>= f = Except.ok b) :
    ∃ a, e = Except.ok a ∧ f a = Except.ok b := by
  cases e with
  | ok a => exact ⟨a, rfl, by simpa [Bind.bind, Except.bind] using h⟩
  | error _ => simp [Bind.bind, Except.bind] at h

theorem mapGet_mapInsert_self (m : List (String × Value)) (k : String)
    (v : Value) : mapGet (mapInsert m k v) k = some v := by
  induction m with
  | nil => simp [mapInsert, mapGet]
  | cons p rest ih =>
      by_cases h : p.1 = k
      · simp [mapInsert, mapGet, h]
      · simp [mapInsert, mapGet, h, ih]

theorem mapInsert_mapGet_eq {m : List (String × Value)} {k : String}
    {v : Value} (h : mapGet m k = some v) : mapInsert m k v = m := by
  induction m with
  | nil => simp [mapGet] at h
  | cons p rest ih =>
      obtain ⟨k', v'⟩ := p
      by_cases hk : k' = k
      · subst hk
        simp [mapGet] at h
        simp [mapInsert, h]
      · simp [mapGet, hk] at h
        simp [mapInsert, hk, ih h]

theorem gocp_of_path_exists :
    ∀ (p : List String) (v : Value), path_exists v p = true →
      get_or_create_current_path v p = Except.ok v := by
  intro p
  induction p with
  | nil => intro v _; cases v <;> rfl
  | cons key rest ih =>
      intro v hpe
      cases v with
      | null => simp [path_exists, Value.get] at hpe
      | str s => simp [path_exists, Value.get] at hpe
      | arr xs => simp [path_exists, Value.get] at hpe
      | obj m =>
          cases hget : mapGet m key with
          | none => simp [path_exists, Value.get, hget] at hpe
          | some child =>
              have hpe' : path_exists child rest = true := by
                simpa [path_exists, Value.get, hget] using hpe
              simp [get_or_create_current_path, hget, ih child hpe', Except.map,
                mapInsert_mapGet_eq hget]

theorem gocp_path_exists :
    ∀ (p : List String) (v v' : Value),
      get_or_create_current_path v p = Except.ok v' → path_exists v' p = true := by
  intro p
  induction p with
  | nil => intro v v' _; rfl
  | cons key rest ih =>
      intro v v' h
      cases v with
      | null =>
          obtain ⟨c, hc, rfl⟩ := except_map_eq_ok h
          simp [path_exists, Value.get, mapGet, ih _ _ hc]
      | str s => simp [get_or_create_current_path] at h
      | arr xs => simp [get_or_create_current_path] at h
      | obj m =>
          cases hget : mapGet m key with
          | some child =>
              rw [get_or_create_current_path, hget] at h
              obtain ⟨c, hc, rfl⟩ := except_map_eq_ok h
              simp [path_exists, Value.get, mapGet_mapInsert_self, ih _ _ hc]
          | none =>
              rw [get_or_create_current_path, hget] at h
              obtain ⟨c, hc, rfl⟩ := except_map_eq_ok h
              simp [path_exists, Value.get, mapGet_mapInsert_self, ih _ _ hc]

theorem node_at_path_exists :
    ∀ (p : List String) (v n : Value), node_at v p = some n →
      path_exists v p = true := by
  intro p
  induction p with
  | nil => intro v n _; rfl
  | cons key rest ih =>
      intro v n h
      cases hget : v.get key with
      | none => rw [node_at, hget] at h; exact absurd h (by simp)
      | some child =>
          rw [node_at, hget] at h
          simp [path_exists, hget, ih _ _ h]

theorem modify_at_spec :
    ∀ (p : List String) (v n : Value) (f : Value → Except Failure Value),
      node_at v p = some n →
      modify_at v p f = (f n).map (set_at v p) := by
  intro p
  induction p with
  | nil =>
      intro v n f h
      have hn : n = v := by simpa [node_at] using h.symm
      subst hn
      cases hf : f n <;> simp [modify_at, Except.map, hf, set_at]
  | cons key rest ih =>
      intro v n f h
      cases v with
      | null => simp [node_at, Value.get] at h
      | str s => simp [node_at, Value.get] at h
      | arr xs => simp [node_at, Value.get] at h
      | obj m =>
          cases hget : mapGet m key with
          | none => simp [node_at, Value.get, hget] at h
          | some child =>
              have h' : node_at child rest = some n := by
                simpa [node_at, Value.get, hget] using h
              simp only [modify_at, hget]
              rw [ih _ _ f h']
              cases hf : f n <;>
                simp [Except.map, set_at, hget]

theorem no_arr_entries_get :
    ∀ {m : List (String × Value)} {k : String} {v : Value},
      no_arr_entries m = true → mapGet m k = some v → no_arr v = true := by
  intro m
  induction m with
  | nil => intro k v _ h; simp [mapGet] at h
  | cons p rest ih =>
      intro k v hm h
      obtain ⟨k', v'⟩ := p
      rw [no_arr_entries, Bool.and_eq_true] at hm
      by_cases hk : k' = k
      · simp [mapGet, hk] at h
        exact h ▸ hm.1
      · simp [mapGet, hk] at h
        exact ih hm.2 h

theorem no_arr_entries_insert :
    ∀ (m : List (String × Value)) (k : String) (v : Value),
      no_arr_entries m = true → no_arr v = true →
      no_arr_entries (mapInsert m k v) = true := by
  intro m
  induction m with
  | nil => intro k v _ hv; simp [mapInsert, no_arr_entries, hv]
  | cons p rest ih =>
      intro k v hm hv
      obtain ⟨k', v'⟩ := p
      rw [no_arr_entries, Bool.and_eq_true] at hm
      by_cases hk : k' = k
      · simp [mapInsert, hk, no_arr_entries, hv, hm.2]
      · simp [mapInsert, hk, no_arr_entries, hm.1, ih k v hm.2 hv]

theorem no_arr_build_attributes (attrs : List XmlAttribute) :
    no_arr_entries (build_attributes attrs) = true := by
  have aux : ∀ (l : List XmlAttribute) (acc : List (String × Value)),
      no_arr_entries acc = true →
      no_arr_entries
        (l.foldl (fun acc a => mapInsert acc a.name (Value.str a.value)) acc) = true := by
    intro l
    induction l with
    | nil => intro acc hacc; simpa using hacc
    | cons a rest ih =>
        intro acc hacc
        exact ih _ (no_arr_entries_insert acc a.name (Value.str a.value) hacc rfl)
  exact aux attrs [] rfl

theorem no_arr_gocp :
    ∀ (p : List String) (v v' : Value), no_arr v = true →
      get_or_create_current_path v p = Except.ok v' → no_arr v' = true := by
  intro p
  induction p with
  | nil =>
      intro v v' hv h
      cases v <;> simp_all [get_or_create_current_path]
  | cons key rest ih =>
      intro v v' hv h
      cases v with
      | null =>
          obtain ⟨c, hc, rfl⟩ := except_map_eq_ok h
          have hc' := ih (Value.obj []) c rfl hc
          simp [no_arr, no_arr_entries, hc']
      | str s => simp [get_or_create_current_path] at h
      | arr xs => simp [no_arr] at hv
      | obj m =>
          rw [no_arr] at hv
          cases hget : mapGet m key with
          | some child =>
              rw [get_or_create_current_path, hget] at h
              obtain ⟨c, hc, rfl⟩ := except_map_eq_ok h
              have hc' := ih _ _ (no_arr_entries_get hv hget) hc
              simp [no_arr, no_arr_entries_insert m key c hv hc']
          | none =>
              rw [get_or_create_current_path, hget] at h
              obtain ⟨c, hc, rfl⟩ := except_map_eq_ok h
              have hc' := ih (Value.obj []) c rfl hc
              simp [no_arr, no_arr_entries_insert m key c hv hc']

theorem no_arr_modify_at :
    ∀ (p : List String) (v v' : Value) (f : Value → Except Failure Value),
      no_arr v = true →
      (∀ c c', no_arr c = true → f c = Except.ok c' → no_arr c' = true) →
      modify_at v p f = Except.ok v' → no_arr v' = true := by
  intro p
  induction p with
  | nil =>
      intro v v' f hv hf h
      rw [show modify_at v [] f = f v from by cases v <;> rfl] at h
      exact hf v v' hv h
  | cons key rest ih =>
      intro v v' f hv hf h
      cases v with
      | null => simp [modify_at] at h
      | str s => simp [modify_at] at h
      | arr xs => simp [no_arr] at hv
      | obj m =>
          rw [no_arr] at hv
          cases hget : mapGet m key with
          | some child =>
              rw [modify_at] at h
              simp only [hget] at h
              obtain ⟨c, hc, rfl⟩ := except_map_eq_ok h
              have hc' := ih _ _ f (no_arr_entries_get hv hget) hf hc
              simp [no_arr, no_arr_entries_insert m key c hv hc']
          | none =>
              rw [modify_at] at h
              simp only [hget] at h
              simp at h

theorem no_arr_insert_node_without_attributes {s : SerdeOutput} {name : String}
    {s' : SerdeOutput} (hs : no_arr s.map = true)
    (h : s.insert_node_without_attributes name = Except.ok s') :
    no_arr s'.map = true := by
  rw [SerdeOutput.insert_node_without_attributes] at h
  obtain ⟨filled, hfill, h⟩ := except_bind_eq_ok h
  obtain ⟨root, hroot, h⟩ := except_bind_eq_ok h
  injection h with h
  subst h
  have h1 := no_arr_gocp _ _ _ hs hfill
  refine no_arr_modify_at _ _ _ _ h1 ?_ hroot
  intro c c' hc hcc
  cases c with
  | obj m =>
      injection hcc with hcc
      subst hcc
      rw [no_arr] at hc
      simp [no_arr, no_arr_entries_insert m name Value.null hc rfl]
  | null => simp at hcc
  | str t => simp at hcc
  | arr xs => simp at hcc

theorem no_arr_insert_node_with_attributes {s : SerdeOutput} {e : XmlElement}
    {name : String} {s' : SerdeOutput} (hs : no_arr s.map = true)
    (h : s.insert_node_with_attributes e name = Except.ok s') :
    no_arr s'.map = true := by
  rw [SerdeOutput.insert_node_with_attributes] at h
  obtain ⟨filled, hfill, h⟩ := except_bind_eq_ok h
  obtain ⟨root, hroot, h⟩ := except_bind_eq_ok h
  injection h with h
  subst h
  have h1 := no_arr_gocp _ _ _ hs hfill
  refine no_arr_modify_at _ _ _ _ h1 ?_ hroot
  intro c c' hc hcc
  cases c with
  | obj m =>
      injection hcc with hcc
      subst hcc
      rw [no_arr] at hc
      have hattrs : no_arr (Value.obj (build_attributes e.attributes)) = true := by
        rw [no_arr]; exact no_arr_build_attributes e.attributes
      simp [no_arr, no_arr_entries_insert m "#attributes" _ hc hattrs]
  | null => simp at hcc
  | str t => simp at hcc
  | arr xs => simp at hcc

theorem no_arr_visit_open_start_element {s : SerdeOutput} {e : XmlElement}
    {s' : SerdeOutput} (hs : no_arr s.map = true)
    (h : s.visit_open_start_element e = Except.ok s') : no_arr s'.map = true := by
  rw [SerdeOutput.visit_open_start_element] at h
  by_cases hd : (e.name == "Data") = true
  · rw [if_pos hd, SerdeOutput.insert_data_node] at h
    cases hfind : e.attributes.find? (fun a => a.name == "Name") with
    | some a =>
        rw [hfind] at h
        exact no_arr_insert_node_without_attributes hs h
    | none => rw [hfind] at h; simp at h
  · rw [if_neg hd] at h
    by_cases hattr : e.attributes.isEmpty = true
    · rw [if_pos hattr] at h
      exact no_arr_insert_node_without_attributes hs h
    · rw [if_neg hattr] at h
      exact no_arr_insert_node_with_attributes hs h

theorem no_arr_visit_characters {s : SerdeOutput} {value : String}
    {s' : SerdeOutput} (hs : no_arr s.map = true)
    (h : s.visit_characters value = Except.ok s') : no_arr s'.map = true := by
  rw [SerdeOutput.visit_characters] at h
  obtain ⟨filled, hfill, h⟩ := except_bind_eq_ok h
  obtain ⟨root, hroot, h⟩ := except_bind_eq_ok h
  injection h with h
  subst h
  have h1 := no_arr_gocp _ _ _ hs hfill
  refine no_arr_modify_at _ _ _ _ h1 ?_ hroot
  intro c c' hc hcc
  cases c with
  | obj m =>
      injection hcc with hcc
      subst hcc
      rw [no_arr] at hc
      simp [no_arr, no_arr_entries_insert m "#text" (Value.str value) hc rfl]
  | null =>
      injection hcc with hcc
      subst hcc
      rfl
  | str t => simp at hcc
  | arr xs => simp at hcc

theorem no_arr_visit {s : SerdeOutput} {ev : VisitEvent} {s' : SerdeOutput}
    (hs : no_arr s.map = true) (h : s.visit ev = Except.ok s') :
    no_arr s'.map = true := by
  cases ev with
  | start_of_stream =>
      rw [SerdeOutput.visit, SerdeOutput.visit_start_of_stream] at h
      injection h with h; subst h; exact hs
  | end_of_stream =>
      rw [SerdeOutput.visit, SerdeOutput.visit_end_of_stream] at h
      injection h with h; subst h; exact hs
  | open_start_element e =>
      exact no_arr_visit_open_start_element hs h
  | close_element =>
      rw [SerdeOutput.visit, SerdeOutput.visit_close_element] at h
      injection h with h; subst h; exact hs
  | characters t =>
      exact no_arr_visit_characters hs h
  | cdata_section => simp [SerdeOutput.visit, SerdeOutput.visit_cdata_section] at h
  | entity_reference =>
      simp [SerdeOutput.visit, SerdeOutput.visit_entity_reference] at h
  | processing_instruction_target =>
      simp [SerdeOutput.visit, SerdeOutput.visit_processing_instruction_target] at h
  | processing_instruction_data =>
      simp [SerdeOutput.visit, SerdeOutput.visit_processing_instruction_data] at h

theorem no_arr_run :
    ∀ (evs : List VisitEvent) (s s' : SerdeOutput), no_arr s.map = true →
      s.run evs = Except.ok s' → no_arr s'.map = true := by
  intro evs
  induction evs with
  | nil =>
      intro s s' hs h
      rw [SerdeOutput.run] at h
      injection h with h
      subst h
      exact hs
  | cons ev rest ih =>
      intro s s' hs h
      rw [SerdeOutput.run] at h
      cases hv : s.visit ev with
      | ok s1 =>
          rw [hv] at h
          exact ih s1 s' (no_arr_visit hs hv) h
      | error e => rw [hv] at h; simp at h

theorem visit_characters_resolved {s : SerdeOutput} {n : Value} (text : String)
    (hn : node_at s.map s.stack = some n) :
    s.visit_characters text =
      (match n with
       | Value.null =>
           Except.ok { s with map := set_at s.map s.stack (Value.str text) }
       | Value.obj m =>
           Except.ok
             { s with map := set_at s.map s.stack (Value.obj (mapInsert m "#text" (Value.str text))) }
       | _ => Except.error
           (Failure.err "This is a bug - expected current value to be an object type")) := by
  have hpe := node_at_path_exists _ _ _ hn
  have hfill := gocp_of_path_exists _ _ hpe
  rw [SerdeOutput.visit_characters, hfill]
  simp only [Bind.bind, Except.bind]
  rw [modify_at_spec _ _ _ _ hn]
  cases n <;> simp [Except.map]

/-! ## Claims -/

/-- C2 counterexample: `visit_cdata_section` on a fresh tree adapter does not
return a failing `Result` — it panics (`unimplemented!`), so the claim that it
"returns an Unsupported error (a failing Result) rather than aborting" is
false. -/
theorem claim_C2_counterexample :
    SerdeOutput.visit_cdata_section SerdeOutput.with_writer =
      Except.error (Failure.panic "not implemented") ∧
    returns_err (SerdeOutput.visit_cdata_section SerdeOutput.with_writer) = false :=
  ⟨rfl, rfl⟩

/-- C2 (amended): for every state of either adapter, `visit_cdata_section`,
`visit_entity_reference`, `visit_processing_instruction_target` and
`visit_processing_instruction_data` panic via `unimplemented!` (an abort, not a
returned `Result` error), never succeed, and never mutate state. -/
theorem claim_C2_amended :
    ∀ (s : SerdeOutput) (x : XMLOutput),
      s.visit_cdata_section = Except.error (Failure.panic "not implemented") ∧
      s.visit_entity_reference = Except.error (Failure.panic "not implemented") ∧
      s.visit_processing_instruction_target =
        Except.error (Failure.panic "not implemented") ∧
      s.visit_processing_instruction_data =
        Except.error (Failure.panic "not implemented") ∧
      x.visit_cdata_section =
        Except.error (Failure.panic "not implemented: visit_cdata_section") ∧
      x.visit_entity_reference =
        Except.error (Failure.panic "not implemented: visit_entity_reference") ∧
      x.visit_processing_instruction_target =
        Except.error (Failure.panic "not implemented: visit_processing_instruction_target") ∧
      x.visit_processing_instruction_data =
        Except.error (Failure.panic "not implemented: visit_processing_instruction_data") :=
  fun _ _ => ⟨rfl, rfl, rfl, rfl, rfl, rfl, rfl, rfl⟩

/-- C3 counterexample: after end-of-stream, `visit_close_element` on the tree
adapter succeeds (returns `Ok`), so the claim that every mutating visit call
fails with `InvalidState` after `visit_end_of_stream` is false. -/
theorem claim_C3_counterexample :
    SerdeOutput.visit_close_element
        { map := Value.obj [], stack := [], eof_reached := true } =
      Except.ok { map := Value.obj [], stack := [], eof_reached := true } :=
  rfl

theorem bind2_map_eof (E : Except Failure Value)
    (g : Value → Except Failure Value) (st : List String) (b : Bool) :
    (E >>= fun filled => g filled >>= fun root =>
        Except.ok (⟨root, st, b⟩ : SerdeOutput)) =
      (E >>= fun filled => g filled >>= fun root =>
        Except.ok (⟨root, st, false⟩ : SerdeOutput)).map
        (fun s1 => { s1 with eof_reached := b }) := by
  cases E with
  | error e => simp [Bind.bind, Except.bind, Except.map]
  | ok filled =>
      cases hg : g filled with
      | error e => simp [Bind.bind, Except.bind, Except.map, hg]
      | ok root => simp [Bind.bind, Except.bind, Except.map, hg]

theorem insert_without_eof_irrelevant (mp : Value) (st : List String) (b : Bool)
    (name : String) :
    SerdeOutput.insert_node_without_attributes ⟨mp, st, b⟩ name =
      (SerdeOutput.insert_node_without_attributes ⟨mp, st, false⟩ name).map
        (fun s1 => { s1 with eof_reached := b }) := by
  rw [SerdeOutput.insert_node_without_attributes,
      SerdeOutput.insert_node_without_attributes]
  exact bind2_map_eof _ _ _ b

theorem insert_with_eof_irrelevant (mp : Value) (st : List String) (b : Bool)
    (e : XmlElement) (name : String) :
    SerdeOutput.insert_node_with_attributes ⟨mp, st, b⟩ e name =
      (SerdeOutput.insert_node_with_attributes ⟨mp, st, false⟩ e name).map
        (fun s1 => { s1 with eof_reached := b }) := by
  rw [SerdeOutput.insert_node_with_attributes,
      SerdeOutput.insert_node_with_attributes]
  exact bind2_map_eof _ _ _ b

theorem serde_open_eof_irrelevant (mp : Value) (st : List String) (b : Bool)
    (e : XmlElement) :
    SerdeOutput.visit_open_start_element ⟨mp, st, b⟩ e =
      (SerdeOutput.visit_open_start_element ⟨mp, st, false⟩ e).map
        (fun s1 => { s1 with eof_reached := b }) := by
  rw [SerdeOutput.visit_open_start_element, SerdeOutput.visit_open_start_element]
  by_cases hd : (e.name == "Data") = true
  · rw [if_pos hd, if_pos hd, SerdeOutput.insert_data_node,
        SerdeOutput.insert_data_node]
    cases hfind : e.attributes.find? (fun a => a.name == "Name") with
    | some a =>
        simp only [hfind]
        exact insert_without_eof_irrelevant mp st b a.value
    | none =>
        simp only [hfind]
        simp [Except.map]
  · rw [if_neg hd, if_neg hd]
    by_cases ha : e.attributes.isEmpty = true
    · rw [if_pos ha, if_pos ha]
      exact insert_without_eof_irrelevant mp st b e.name
    · rw [if_neg ha, if_neg ha]
      exact insert_with_eof_irrelevant mp st b e e.name

theorem serde_characters_eof_irrelevant (mp : Value) (st : List String)
    (b : Bool) (t : String) :
    SerdeOutput.visit_characters ⟨mp, st, b⟩ t =
      (SerdeOutput.visit_characters ⟨mp, st, false⟩ t).map
        (fun s1 => { s1 with eof_reached := b }) := by
  rw [SerdeOutput.visit_characters, SerdeOutput.visit_characters]
  exact bind2_map_eof _ _ _ b

/-- C3 (amended): after end-of-stream, only `XMLOutput`'s
`visit_start_of_stream` and `visit_open_start_element` fail with an
`InvalidState` error; `XMLOutput`'s `visit_close_element` and
`visit_characters` perform no check and just write to the underlying writer;
and `SerdeOutput` performs no end-of-stream check at all — each of its
mutating calls (`visit_start_of_stream`, `visit_close_element`,
`visit_open_start_element`, `visit_characters`) behaves exactly as it would
before EOF (the same result, with the flag still set in the output state). -/
theorem claim_C3_amended :
    ∀ (x : XMLOutput) (e : XmlElement) (s : SerdeOutput) (t : String),
      x.eof_reached = true → s.eof_reached = true →
      x.visit_start_of_stream =
        Except.error (Failure.err "Impossible state - `visit_start_of_stream` after EOF") ∧
      x.visit_open_start_element e =
        Except.error (Failure.err "Impossible state - `visit_open_start_element` after EOF") ∧
      x.visit_close_element =
        Except.ok { x with events := x.events ++ [XmlWriterEvent.end_element] } ∧
      x.visit_characters t =
        Except.ok { x with events := x.events ++ [XmlWriterEvent.characters t] } ∧
      s.visit_start_of_stream = Except.ok s ∧
      s.visit_close_element = Except.ok { s with stack := s.stack.dropLast } ∧
      s.visit_open_start_element e =
        (SerdeOutput.visit_open_start_element { s with eof_reached := false } e).map
          (fun s1 => { s1 with eof_reached := true }) ∧
      s.visit_characters t =
        (SerdeOutput.visit_characters { s with eof_reached := false } t).map
          (fun s1 => { s1 with eof_reached := true }) := by
  intro x e s t hx hs
  obtain ⟨mp, st, sb⟩ := s
  have hsb : sb = true := hs
  subst hsb
  refine ⟨?_, ?_, rfl, rfl, rfl, rfl, ?_, ?_⟩
  · simp [XMLOutput.visit_start_of_stream, hx]
  · simp [XMLOutput.visit_open_start_element, hx]
  · exact serde_open_eof_irrelevant mp st true e
  · exact serde_characters_eof_irrelevant mp st true t

/-- C3 witness: the amended theorem applied at concrete post-EOF states of
both adapters. -/
theorem claim_C3_witness :
    XMLOutput.visit_start_of_stream { events := [], eof_reached := true } =
      Except.error (Failure.err "Impossible state - `visit_start_of_stream` after EOF") ∧
    SerdeOutput.visit_close_element
        { map := Value.obj [], stack := ["Event"], eof_reached := true } =
      Except.ok { map := Value.obj [], stack := [], eof_reached := true } ∧
    SerdeOutput.visit_characters
        { map := Value.obj [], stack := [], eof_reached := true } "x" =
      (SerdeOutput.visit_characters
        { map := Value.obj [], stack := [], eof_reached := false } "x").map
        (fun s1 => { s1 with eof_reached := true }) :=
  ⟨(claim_C3_amended { events := [], eof_reached := true } ⟨"E", []⟩
      { map := Value.obj [], stack := ["Event"], eof_reached := true } "x" rfl rfl).1,
   (claim_C3_amended { events := [], eof_reached := true } ⟨"E", []⟩
      { map := Value.obj [], stack := ["Event"], eof_reached := true } "x" rfl rfl).2.2.2.2.2.1,
   (claim_C3_amended { events := [], eof_reached := true } ⟨"E", []⟩
      { map := Value.obj [], stack := [], eof_reached := true } "x" rfl rfl).2.2.2.2.2.2.2⟩

/-- C6: after end-of-stream, `into_writer` on the tree adapter fails with the
`InvalidState` error when the path stack is non-empty, and with an empty stack
it succeeds, handing the pretty-serialized document root to the sink (modelled
as returning the root). -/
theorem claim_C6_confirmed :
    ∀ (s : SerdeOutput), s.eof_reached = true →
      (s.stack ≠ [] →
        s.into_writer = Except.error
          (Failure.err "Invalid stream, EOF reached before closing all attributes")) ∧
      (s.stack = [] → s.into_writer = Except.ok s.map) := by
  intro s hs
  constructor
  · intro hne
    have hempty : s.stack.isEmpty = false := by
      cases hstack : s.stack with
      | nil => exact absurd hstack hne
      | cons a l => rfl
    simp [SerdeOutput.into_writer, hs, hempty]
  · intro hempty
    simp [SerdeOutput.into_writer, hs, hempty]

/-- C6 witness: the theorem applied at a state with one unclosed element and
at a fully-closed state. -/
theorem claim_C6_witness :
    SerdeOutput.into_writer
        { map := Value.obj [], stack := ["Event"], eof_reached := true } =
      Except.error
        (Failure.err "Invalid stream, EOF reached before closing all attributes") ∧
    SerdeOutput.into_writer
        { map := Value.obj [], stack := [], eof_reached := true } =
      Except.ok (Value.obj []) :=
  ⟨(claim_C6_confirmed
      { map := Value.obj [], stack := ["Event"], eof_reached := true } rfl).1
      (by simp),
   (claim_C6_confirmed
      { map := Value.obj [], stack := [], eof_reached := true } rfl).2 rfl⟩

/-- C7: before end-of-stream was observed, `into_writer` fails with the
`IncompleteOutput` error on both adapters and does not return the sink. -/
theorem claim_C7_confirmed :
    ∀ (s : SerdeOutput) (x : XMLOutput),
      s.eof_reached = false → x.eof_reached = false →
      s.into_writer = Except.error
        (Failure.err "Tried to return writer before EOF marked, incomplete output.") ∧
      x.into_writer = Except.error
        (Failure.err "Tried to return writer before EOF marked, incomplete output.") := by
  intro s x hs hx
  constructor
  · simp [SerdeOutput.into_writer, hs]
  · simp [XMLOutput.into_writer, hx]

/-- C7 witness: the theorem applied to both freshly constructed adapters. -/
theorem claim_C7_witness :
    SerdeOutput.with_writer.into_writer = Except.error
      (Failure.err "Tried to return writer before EOF marked, incomplete output.") ∧
    XMLOutput.with_writer.into_writer = Except.error
      (Failure.err "Tried to return writer before EOF marked, incomplete output.") :=
  ⟨(claim_C7_confirmed SerdeOutput.with_writer XMLOutput.with_writer rfl rfl).1,
   (claim_C7_confirmed SerdeOutput.with_writer XMLOutput.with_writer rfl rfl).2⟩

/-- C10: the tree adapter's `visit_close_element` is total — in every state it
returns `Ok` and just drops the last stack segment; on an empty stack it is a
no-op (the state, including the document root, is unchanged). -/
theorem claim_C10_confirmed :
    ∀ (s : SerdeOutput),
      s.visit_close_element = Except.ok { s with stack := s.stack.dropLast } ∧
      (s.stack = [] → s.visit_close_element = Except.ok s) := by
  intro s
  constructor
  · rfl
  · intro h
    obtain ⟨m, st, e⟩ := s
    have h' : st = [] := h
    subst h'
    rfl

/-- C10 witness: the theorem applied at a state with an empty stack. -/
theorem claim_C10_witness :
    SerdeOutput.visit_close_element
        { map := Value.obj [], stack := [], eof_reached := false } =
      Except.ok { map := Value.obj [], stack := [], eof_reached := false } :=
  (claim_C10_confirmed
    { map := Value.obj [], stack := [], eof_reached := false }).2 rfl

/-- C1 counterexample: path resolution registers a missing child key with an
empty `Object`, not with the `Null` placeholder the claim states — both when
inserting into an existing `Object` and when replacing a `Null` node. -/
theorem claim_C1_counterexample :
    get_or_create_current_path (Value.obj []) ["A"] =
      Except.ok (Value.obj [("A", Value.obj [])]) ∧
    get_or_create_current_path Value.null ["A"] =
      Except.ok (Value.obj [("A", Value.obj [])]) ∧
    Value.obj [] ≠ Value.null :=
  ⟨rfl, rfl, fun h => Value.noConfusion h⟩

/-- C1 (amended): `get_or_create_current_path` registers every missing child
key by mapping it to an empty `Object` placeholder (replacing a `Null` current
node with an `Object` holding that one key, or inserting the key into an
existing `Object` only if absent), and never overwrites already-resolved
content along the path: when the whole path already exists the walk returns
the root unchanged, and on success the walked path exists. -/
theorem claim_C1_amended :
    (∀ (v : Value) (p : List String), path_exists v p = true →
        get_or_create_current_path v p = Except.ok v) ∧
    (∀ (v v' : Value) (p : List String),
        get_or_create_current_path v p = Except.ok v' →
        path_exists v' p = true) ∧
    get_or_create_current_path (Value.obj []) ["A"] =
      Except.ok (Value.obj [("A", Value.obj [])]) ∧
    get_or_create_current_path Value.null ["A"] =
      Except.ok (Value.obj [("A", Value.obj [])]) :=
  ⟨fun v p h => gocp_of_path_exists p v h,
   fun v v' p h => gocp_path_exists p v v' h, rfl, rfl⟩

/-- C1 witness: the no-overwrite part of the amended theorem at a concrete
fully-resolved path. -/
theorem claim_C1_witness :
    get_or_create_current_path (Value.obj [("A", Value.null)]) ["A"] =
      Except.ok (Value.obj [("A", Value.null)]) :=
  claim_C1_amended.1 (Value.obj [("A", Value.null)]) ["A"] rfl

/-- C4 counterexample: a `String` node along the walked path makes the tree
adapter panic (`expect`), not return an `InvariantViolation` error; the state
is reachable through the public protocol (open, characters, open child). -/
theorem claim_C4_counterexample :
    SerdeOutput.with_writer.run
        [VisitEvent.open_start_element ⟨"A", []⟩, VisitEvent.characters "x",
         VisitEvent.open_start_element ⟨"B", []⟩] =
      Except.error
        (Failure.panic "It can only be an object or null, and null was covered") ∧
    returns_err (SerdeOutput.with_writer.run
        [VisitEvent.open_start_element ⟨"A", []⟩, VisitEvent.characters "x",
         VisitEvent.open_start_element ⟨"B", []⟩]) = false :=
  ⟨rfl, rfl⟩

/-- C4 (amended): if path resolution encounters a `String` node with path
segments still to walk, the operation panics via
`.expect("It can only be an object or null, and null was covered")` — an
abort, not an `InvariantViolation` error returned to the caller — and the
situation is reachable from a fresh adapter through the public protocol. -/
theorem claim_C4_amended :
    (∀ (t : String) (key : String) (rest : List String),
        get_or_create_current_path (Value.str t) (key :: rest) =
          Except.error
            (Failure.panic "It can only be an object or null, and null was covered")) ∧
    SerdeOutput.with_writer.run
        [VisitEvent.open_start_element ⟨"A", []⟩, VisitEvent.characters "x",
         VisitEvent.open_start_element ⟨"B", []⟩] =
      Except.error
        (Failure.panic "It can only be an object or null, and null was covered") :=
  ⟨fun _ _ _ => rfl, rfl⟩

/-- C5: `visit_characters` resolves the current path and acts by the kind of
the current node — `Null` is replaced by `String(text)`, an `Object` gets
`"#text" ↦ String(text)` inserted or overwritten, and any other kind is a
returned `InvariantViolation` error; concretely, `<Task>` with text `12288`
yields `{"Task": "12288"}` and `<EventID Qualifiers="">` with text `4902`
yields `{"EventID": {"#attributes": {"Qualifiers": ""}, "#text": "4902"}}`. -/
theorem claim_C5_confirmed :
    (∀ (s : SerdeOutput) (text : String) (n : Value),
        node_at s.map s.stack = some n →
        (n = Value.null →
          s.visit_characters text =
            Except.ok { s with map := set_at s.map s.stack (Value.str text) }) ∧
        (∀ m, n = Value.obj m →
          s.visit_characters text =
            Except.ok { s with map := set_at s.map s.stack (Value.obj (mapInsert m "#text" (Value.str text))) }) ∧
        (∀ t, n = Value.str t →
          s.visit_characters text = Except.error
            (Failure.err "This is a bug - expected current value to be an object type")) ∧
        (∀ xs, n = Value.arr xs →
          s.visit_characters text = Except.error
            (Failure.err "This is a bug - expected current value to be an object type"))) ∧
    run_to_writer [VisitEvent.start_of_stream,
        VisitEvent.open_start_element ⟨"Task", []⟩, VisitEvent.characters "12288",
        VisitEvent.close_element, VisitEvent.end_of_stream] =
      Except.ok (Value.obj [("Task", Value.str "12288")]) ∧
    run_to_writer [VisitEvent.start_of_stream,
        VisitEvent.open_start_element ⟨"EventID", [⟨"Qualifiers", ""⟩]⟩,
        VisitEvent.characters "4902", VisitEvent.close_element,
        VisitEvent.end_of_stream] =
      Except.ok (Value.obj [("EventID", Value.obj
        [("#attributes", Value.obj [("Qualifiers", Value.str "")]),
         ("#text", Value.str "4902")])]) := by
  refine ⟨?_, rfl, rfl⟩
  intro s text n hn
  refine ⟨?_, ?_, ?_, ?_⟩
  · rintro rfl
    rw [visit_characters_resolved text hn]
  · rintro m rfl
    rw [visit_characters_resolved text hn]
  · rintro t rfl
    rw [visit_characters_resolved text hn]
  · rintro xs rfl
    rw [visit_characters_resolved text hn]

/-- C5 witness: the `Null`-promotion branch of the theorem at the concrete
`Task` state. -/
theorem claim_C5_witness :
    SerdeOutput.visit_characters
        { map := Value.obj [("Task", Value.null)], stack := ["Task"],
          eof_reached := false } "12288" =
      Except.ok
        { map := Value.obj [("Task", Value.str "12288")], stack := ["Task"],
          eof_reached := false } :=
  (claim_C5_confirmed.1
    { map := Value.obj [("Task", Value.null)], stack := ["Task"],
      eof_reached := false }
    "12288" Value.null rfl).1 rfl

/-- C8 counterexample: a `Data` element with no `Name` attribute makes
`visit_open_start_element` panic (`.expect("Data node to have a name")`), not
return an `InvariantViolation` error. -/
theorem claim_C8_counterexample :
    SerdeOutput.with_writer.visit_open_start_element ⟨"Data", []⟩ =
      Except.error (Failure.panic "Data node to have a name") ∧
    returns_err
      (SerdeOutput.with_writer.visit_open_start_element ⟨"Data", []⟩) = false :=
  ⟨rfl, rfl⟩

/-- C8 (amended): for a `Data` element, `visit_open_start_element` uses the
value of the attribute literally named `Name` as the child key and proceeds
exactly as the no-attributes case (so the `Name` attribute is not re-emitted
and `<Data Name="Foo">bar</Data>` yields `{"Foo": "bar"}`); when no `Name`
attribute exists the call panics via `.expect("Data node to have a name")`
rather than returning an `InvariantViolation` error. -/
theorem claim_C8_amended :
    (∀ (s : SerdeOutput) (e : XmlElement) (a : XmlAttribute),
        e.name = "Data" →
        e.attributes.find? (fun attr => attr.name == "Name") = some a →
        s.visit_open_start_element e = s.insert_node_without_attributes a.value) ∧
    (∀ (s : SerdeOutput) (e : XmlElement),
        e.name = "Data" →
        e.attributes.find? (fun attr => attr.name == "Name") = none →
        s.visit_open_start_element e =
          Except.error (Failure.panic "Data node to have a name")) ∧
    run_to_writer [VisitEvent.start_of_stream,
        VisitEvent.open_start_element ⟨"Data", [⟨"Name", "Foo"⟩]⟩,
        VisitEvent.characters "bar", VisitEvent.close_element,
        VisitEvent.end_of_stream] =
      Except.ok (Value.obj [("Foo", Value.str "bar")]) := by
  refine ⟨?_, ?_, rfl⟩
  · intro s e a hname hfind
    simp [SerdeOutput.visit_open_start_element, hname,
      SerdeOutput.insert_data_node, hfind]
  · intro s e hname hfind
    simp [SerdeOutput.visit_open_start_element, hname,
      SerdeOutput.insert_data_node, hfind]

/-- C8 witness: the keying part of the amended theorem at the concrete
`<Data Name="Foo">` element. -/
theorem claim_C8_witness :
    SerdeOutput.with_writer.visit_open_start_element
        ⟨"Data", [⟨"Name", "Foo"⟩]⟩ =
      SerdeOutput.with_writer.insert_node_without_attributes "Foo" :=
  claim_C8_amended.1 SerdeOutput.with_writer ⟨"Data", [⟨"Name", "Foo"⟩]⟩
    ⟨"Name", "Foo"⟩ rfl rfl

theorem open_no_attrs_overwrites {m : List (String × Value)} {k : String}
    {v : Value} (hk : (k == "Data") = false) (hget : mapGet m k = some v) :
    SerdeOutput.visit_open_start_element
        { map := Value.obj m, stack := [], eof_reached := false } ⟨k, []⟩ =
      Except.ok { map := Value.obj (mapInsert m k Value.null), stack := [k],
                  eof_reached := false } := by
  have h1 : SerdeOutput.visit_open_start_element
      { map := Value.obj m, stack := [], eof_reached := false } ⟨k, []⟩ =
      SerdeOutput.insert_node_without_attributes
        { map := Value.obj m, stack := [], eof_reached := false } k := by
    simp [SerdeOutput.visit_open_start_element, hk]
  have hfill : get_or_create_current_path (Value.obj m) [k] =
      Except.ok (Value.obj m) := by
    rw [get_or_create_current_path, hget]
    simp [get_or_create_current_path, Except.map, mapInsert_mapGet_eq hget]
  rw [h1, SerdeOutput.insert_node_without_attributes]
  simp only [List.nil_append]
  rw [hfill]
  simp [Bind.bind, Except.bind, modify_at, List.dropLast]

/-- C9: a sibling element resolving to a key already bound at the same level
overwrites the earlier entry in the parent `Object` (opening it re-binds the
key to `Null`, discarding the previous content — last write wins), as the
concrete run of two sibling `<A>` elements shows; and no event sequence ever
produces an `Array` anywhere in the document root. -/
theorem claim_C9_confirmed :
    (∀ (m : List (String × Value)) (k : String) (v : Value),
        (k == "Data") = false → mapGet m k = some v →
        SerdeOutput.visit_open_start_element
            { map := Value.obj m, stack := [], eof_reached := false } ⟨k, []⟩ =
          Except.ok { map := Value.obj (mapInsert m k Value.null),
                      stack := [k], eof_reached := false }) ∧
    run_to_writer [VisitEvent.start_of_stream,
        VisitEvent.open_start_element ⟨"A", []⟩, VisitEvent.characters "x",
        VisitEvent.close_element,
        VisitEvent.open_start_element ⟨"A", []⟩, VisitEvent.characters "y",
        VisitEvent.close_element, VisitEvent.end_of_stream] =
      Except.ok (Value.obj [("A", Value.str "y")]) ∧
    (∀ (evs : List VisitEvent) (s' : SerdeOutput),
        SerdeOutput.with_writer.run evs = Except.ok s' →
        no_arr s'.map = true) := by
  refine ⟨?_, rfl, ?_⟩
  · intro m k v hk hget
    exact open_no_attrs_overwrites hk hget
  · intro evs s' h
    exact no_arr_run evs SerdeOutput.with_writer s' rfl h

/-- C9 witness: the overwrite part at a parent already holding
`"A" ↦ String "x"`, and the no-array part at a concrete run. -/
theorem claim_C9_witness :
    SerdeOutput.visit_open_start_element
        { map := Value.obj [("A", Value.str "x")], stack := [],
          eof_reached := false } ⟨"A", []⟩ =
      Except.ok { map := Value.obj [("A", Value.null)], stack := ["A"],
                  eof_reached := false } ∧
    no_arr (Value.obj []) = true :=
  ⟨claim_C9_confirmed.1 [("A", Value.str "x")] "A" (Value.str "x") rfl rfl,
   claim_C9_confirmed.2.2 [] SerdeOutput.with_writer rfl⟩
